import Mathlib

/-!
Verification of the prompt-construction and provider layer of the
`describe-commit` tool (Go), against its natural-language specification.

The Go source under `internal/ai/openai.go`, `internal/ai/openrouter.go` and
`internal/diff/git.go` is shallowly embedded below.  HTTP transport is
modelled by passing the stub response explicitly to `Query`; JSON bodies are
modelled post-decode: an `HttpResponse` carries the result of decoding the
body into the `choices` shape and into the `error` shape (`none` = the JSON
decoder fails on that target shape).

The repository files declaring `options`, `Option`, `GeneratePrompt`,
`generatePrompt`, `wrapChanges`, `wrapCommits`, `defaultMaxOutputTokens`,
`Response` and the `Provider` interface are not part of the provided sources
(only their callers and the prompt test are); those definitions are modelled
from the specification and are marked `Modelled from the spec:` in their
doc comments.
-/

/-- Go `strings.Split(s, sep)` for a one-character separator, on character
lists: always returns at least one part; `split "" = [""]`. -/
def splitChar (sep : Char) : List Char → List (List Char)
  | [] => [[]]
  | c :: rest =>
    let r := splitChar sep rest
    if c = sep then [] :: r
    else
      match r with
      | [] => [[c]]
      | h :: t => (c :: h) :: t

/-- Go `strings.Split(s, "\n")`. -/
def goSplitNL (s : String) : List String :=
  (splitChar (Char.ofNat 10) s.toList).map (fun l => String.mk l)

/-- Go `strings.Join(l, sep)`. -/
def joinSep (sep : String) : List String → String
  | [] => ""
  | [x] => x
  | x :: y :: t => x ++ sep ++ joinSep sep (y :: t)

/-- Drop the characters of `cs` from the front and the back of `s`
(Go `strings.Trim(s, cutset)`). -/
def trimSet (cs : List Char) (s : String) : String :=
  String.mk (((s.toList.dropWhile (fun c => cs.contains c)).reverse.dropWhile
    (fun c => cs.contains c)).reverse)

/-- Go `strings.Trim(s, "\n\t ")` as used by `OpenAI.parseResponse`. -/
def goTrim (s : String) : String :=
  trimSet [Char.ofNat 10, Char.ofNat 9, ' '] s

/-- Contiguous-sublist test on character lists. -/
def subOf (needle : List Char) : List Char → Bool
  | [] => needle.isEmpty
  | c :: rest => needle.isPrefixOf (c :: rest) || subOf needle rest

/-- Substring test: `containsSub n h = true` iff `n` occurs contiguously in `h`
(Go `strings.Contains(h, n)`). -/
def containsSub (needle hay : String) : Bool :=
  subOf needle.toList hay.toList

/-- Modelled from the spec: the `options` struct (`ShortMessageOnly`,
`EnableEmoji`, `MaxOutputTokens`, default applied when zero); its declaring
file is not among the provided sources. -/
structure options where
  ShortMessageOnly : Bool
  EnableEmoji : Bool
  MaxOutputTokens : Int
deriving DecidableEq, Repr

/-- Modelled from the spec: the functional `Option` modifiers applied in
order to a zero `options` value, last write wins per field.  Named
`OptionMod` because `Option` is taken in Lean. -/
inductive OptionMod where
  | withShortMessageOnly (v : Bool)
  | withEnableEmoji (v : Bool)
  | withMaxOutputTokens (v : Int)
deriving DecidableEq, Repr

/-- Modelled from the spec: applying one functional option to an `options`
value. -/
def applyOption (o : options) : OptionMod → options
  | .withShortMessageOnly v => ⟨v, o.EnableEmoji, o.MaxOutputTokens⟩
  | .withEnableEmoji v => ⟨o.ShortMessageOnly, v, o.MaxOutputTokens⟩
  | .withMaxOutputTokens v => ⟨o.ShortMessageOnly, o.EnableEmoji, v⟩

/-- Modelled from the spec: `options{}.Apply(opts...)` — the ordered
application of the modifiers to the zero value. -/
def applyOptions (mods : List OptionMod) : options :=
  mods.foldl applyOption ⟨false, false, 0⟩

/-- Modelled from the spec: the documented `MaxOutputTokens` fallback
(`defaultMaxOutputTokens`).  Its numeric value is not given by the provided
sources; none of the claims depends on the value, only on it being the one
substituted for zero. -/
def defaultMaxOutputTokens : Int := 500

/-- The default-substitution step both providers perform before building the
wire request (openai.go:69-71, openrouter.go:67-69). -/
def resolveTokens (o : options) : options :=
  if o.MaxOutputTokens = 0 then ⟨o.ShortMessageOnly, o.EnableEmoji, defaultMaxOutputTokens⟩
  else o

/-- Modelled from the spec: `Response{Prompt, Answer}`. -/
structure Response where
  Prompt : String
  Answer : String
deriving DecidableEq, Repr

/-- Modelled from the spec: the role-tagged message envelope
`{Role, Content}`. -/
structure Message where
  role : String
  content : String
deriving DecidableEq, Repr

/-- Modelled from the spec: the changes text wrapped in a distinguishing
delimiter (`wrapChanges`). -/
def wrapChanges (s : String) : String :=
  "<changes>\n" ++ s ++ "\n</changes>"

/-- Modelled from the spec: the commits text wrapped in a distinguishing
delimiter (`wrapCommits`). -/
def wrapCommits (s : String) : String :=
  "<commits>\n" ++ s ++ "\n</commits>"

/-- Modelled from the spec: the always-present Role section of the
instructions. -/
def promptRole : List String :=
  ["## Role",
   "You are acting as a Git history expert who writes commit messages."]

/-- Modelled from the spec: the always-present Task section of the
instructions. -/
def promptTask : List String :=
  ["## Task",
   "Take the output of the git diff --staged command and convert it into a well-structured Git commit message."]

/-- Modelled from the spec: the target-format lines of the Guidelines,
branching on `EnableEmoji`. -/
def promptFormat (emoji : Bool) : List String :=
  if emoji then
    ["Use the Conventional Commit format: `<emoji> <type>(<scope>): <message>`",
     "Example: 🐛 fix(auth): Resolve login redirect loop"]
  else
    ["Use the Conventional Commit format: `<type>(<scope>): <message>`",
     "Example: fix(auth): Resolve login redirect loop"]

/-- Modelled from the spec: the compact Guidelines variant emitted when
`ShortMessageOnly` is set. -/
def shortGuidelines (emoji : Bool) : List String :=
  ["## Guidelines"] ++ promptFormat emoji ++
  ["Focus on the primary purpose of the commit.",
   "Summarize all changes in a single line.",
   "Explain why the changes were made, not just what was changed."]

/-- Modelled from the spec: the full Guidelines variant emitted when
`ShortMessageOnly` is not set. -/
def longGuidelines (emoji : Bool) : List String :=
  ["## Guidelines"] ++ promptFormat emoji ++
  ["Focus on summarizing the intent of the changes.",
   "Vague messages like update code are not acceptable.",
   "Use present tense and imperative mood.",
   "Keep commit messages clean, without period at the end of the first line.",
   "### Commit Message Structure",
   "The first line should follow the Conventional Commit format.",
   "### Commit Body",
   "If needed, add a detailed description in bullet points.",
   "Explain additional context behind the change.",
   "Include a **summary** and a list of notable changes.",
   "Avoid excessive detail.",
   "Do not start it with the words This commit."]

/-- Modelled from the spec: the always-present Security section of the
instructions. -/
def promptSecurity : List String :=
  ["## Security",
   "Never include sensitive data such as secrets or keys in the commit message."]

/-- Modelled from the spec: `generatePrompt(options)` — the ordered
instruction lines: Role, Task, one Guidelines variant chosen by
`ShortMessageOnly` (emoji examples controlled by `EnableEmoji`), Security. -/
def generatePrompt (o : options) : List String :=
  promptRole ++ promptTask ++
  (if o.ShortMessageOnly then shortGuidelines o.EnableEmoji
   else longGuidelines o.EnableEmoji) ++
  promptSecurity

/-- Modelled from the spec: `GeneratePrompt(opts...)` — the rendered
instruction text of the applied options. -/
def GeneratePrompt (opts : List OptionMod) : String :=
  joinSep "\n" (generatePrompt (applyOptions opts))

/-- An HTTP response as seen by a provider after the transport call.
JSON decoding is modelled post-hoc: `decodeChoices` is the result of
decoding the body into the `choices:[...message.content]` shape (`none` =
decoder error), `decodeErrorMessage` the result of decoding it into the
`error.message` shape (`none` = decoder error; the Go zero value makes a
missing field decode to `""`). -/
structure HttpResponse where
  statusCode : Nat
  decodeChoices : Option (List String)
  decodeErrorMessage : Option String
deriving DecidableEq, Repr

/-- Go `net/http.StatusText` restricted to the codes exercised here. -/
def statusText (code : Nat) : String :=
  if code = 200 then "OK"
  else if code = 400 then "Bad Request"
  else if code = 401 then "Unauthorized"
  else if code = 403 then "Forbidden"
  else if code = 404 then "Not Found"
  else if code = 429 then "Too Many Requests"
  else if code = 500 then "Internal Server Error"
  else ""

/-- Embeds `OpenAI.responseToError` (openai.go:161-179): the provider-reported
`error.message` when decoding succeeds and it is non-empty, otherwise the raw
status. -/
def OpenAI.responseToError (resp : HttpResponse) : String :=
  match resp.decodeErrorMessage with
  | some m =>
    if m ≠ "" then
      "OpenAI API error: " ++ m ++ " (status code: " ++ toString resp.statusCode ++ ")"
    else
      "unexpected OpenAI API response status code: " ++ toString resp.statusCode ++
        " (" ++ statusText resp.statusCode ++ ")"
  | none =>
    "unexpected OpenAI API response status code: " ++ toString resp.statusCode ++
      " (" ++ statusText resp.statusCode ++ ")"

/-- Embeds `OpenAI.parseResponse` (openai.go:182-208): fail on a decode error
or zero choices, otherwise join the non-empty choice contents with newlines
and trim the surrounding newline/tab/space characters. -/
def OpenAI.parseResponse (resp : HttpResponse) : Except String String :=
  match resp.decodeChoices with
  | none => .error "response decode error"
  | some choices =>
    if choices.length = 0 then .error "no response from the OpenAI API"
    else .ok (goTrim (joinSep "\n" (choices.filter (fun c => !(c == "")))))

/-- Embeds `OpenAI.Query` (openai.go:59-105) with the transport stubbed by
the explicit `resp`; `changes` and `commits` only enter the outgoing request,
which `OpenAI.queryRequest` models. -/
def OpenAI.Query (changes commits : String) (opts : List OptionMod)
    (resp : HttpResponse) : Except String Response :=
  let opt := resolveTokens (applyOptions opts)
  let instructions := GeneratePrompt opts
  if resp.statusCode ≠ 200 then .error (OpenAI.responseToError resp)
  else
    match OpenAI.parseResponse resp with
    | .error e => .error e
    | .ok answer =>
      if opt.ShortMessageOnly then
        let parts := goSplitNL answer
        if parts.length = 0 then .error "no response from the OpenAI API"
        else .ok ⟨instructions, parts.headD ""⟩
      else .ok ⟨instructions, answer⟩

/-- Embeds `OpenRouter.Query` (openrouter.go:63-111) with the transport
stubbed by the explicit `resp`: a bare status-code error on non-200, a
"no response" error when there are zero choices or the first choice's
content is empty, and otherwise the first choice's content verbatim. -/
def OpenRouter.Query (changes commits : String) (opts : List OptionMod)
    (resp : HttpResponse) : Except String Response :=
  let opt := resolveTokens (applyOptions opts)
  let instructions := GeneratePrompt opts
  if resp.statusCode ≠ 200 then
    .error ("unexpected OpenRouter API response status code: " ++ toString resp.statusCode)
  else
    match resp.decodeChoices with
    | none => .error "response decode error"
    | some choices =>
      if choices.length = 0 || choices.headD "" == "" then
        .error "no response from OpenRouter API"
      else
        let content := choices.headD ""
        if opt.ShortMessageOnly then
          let parts := goSplitNL content
          if parts.length = 0 then .error "no response from OpenRouter API"
          else .ok ⟨instructions, parts.headD ""⟩
        else .ok ⟨instructions, content⟩

/-- The OpenAI chat-completions request body (openai.go:119-139), modelled at
the struct level (its JSON serialization is field-for-field). -/
structure OpenAIRequestBody where
  model : String
  messages : List Message
  store : Bool
  temperature : Rat
  topP : Rat
  howMany : Nat
  maxCompletionTokens : Int
deriving DecidableEq, Repr

/-- The OpenRouter chat-completions request body (openrouter.go:121-141),
modelled at the struct level. -/
structure OpenRouterRequestBody where
  model : String
  messages : List Message
  temperature : Rat
  topP : Rat
  n : Nat
  maxTokens : Int
  stream : Bool
deriving DecidableEq, Repr

/-- Embeds the body construction of `OpenAI.newRequest` (openai.go:108-158). -/
def OpenAI.newRequestBody (modelName instructions changes commits : String)
    (o : options) : OpenAIRequestBody :=
  ⟨modelName,
   [⟨"system", instructions⟩,
    ⟨"user", wrapChanges changes⟩,
    ⟨"user", wrapCommits commits⟩],
   false, 1/10, 1/10, 1, o.MaxOutputTokens⟩

/-- Embeds the body construction of `OpenRouter.newRequest`
(openrouter.go:115-163). -/
def OpenRouter.newRequestBody (modelName instructions changes commits : String)
    (o : options) : OpenRouterRequestBody :=
  ⟨modelName,
   [⟨"system", instructions⟩,
    ⟨"user", wrapChanges changes⟩,
    ⟨"user", wrapCommits commits⟩],
   1/10, 1/10, 1, o.MaxOutputTokens, false⟩

/-- The request body `OpenAI.Query` sends: options applied, default tokens
resolved, instructions generated, body built (openai.go:64-73). -/
def OpenAI.queryRequest (modelName changes commits : String)
    (opts : List OptionMod) : OpenAIRequestBody :=
  OpenAI.newRequestBody modelName (GeneratePrompt opts) changes commits
    (resolveTokens (applyOptions opts))

/-- The request body `OpenRouter.Query` sends (openrouter.go:64-71). -/
def OpenRouter.queryRequest (modelName changes commits : String)
    (opts : List OptionMod) : OpenRouterRequestBody :=
  OpenRouter.newRequestBody modelName (GeneratePrompt opts) changes commits
    (resolveTokens (applyOptions opts))

/-- The outcome of running the `git diff` subprocess: whether it exited
zero, its captured standard output and standard error, and the error text
`cmd.Run` reports on a non-zero exit (for example "exit status 1"). -/
structure RunOutcome where
  success : Bool
  stdout : String
  stderr : String
  errText : String
deriving DecidableEq, Repr

/-- The environment `diff.Git` runs in: the result of `exec.LookPath("git")`
(`none` with `lookErrText` when the executable is absent) and the outcome the
diff subprocess would have. -/
structure GitEnv where
  gitPath : Option String
  lookErrText : String
  run : RunOutcome
deriving DecidableEq, Repr

/-- Go `len(strings.TrimSpace(s)) == 0`: every character is (ASCII)
whitespace. -/
def isBlankLine (s : String) : Bool :=
  s.toList.all (fun c => [' ', Char.ofNat 9, Char.ofNat 10, Char.ofNat 13].contains c)

/-- Embeds `diff.Git` (git.go:10-66): a "git not found" error when the
lookup fails, the subprocess otherwise; on a non-zero exit the non-blank
standard-error lines are joined with "; " and prefixed to the run error,
all wrapped as "git diff failed"; the diff string is empty on every
failure. -/
def Git (env : GitEnv) : String × Option String :=
  match env.gitPath with
  | none => ("", some ("git not found: " ++ env.lookErrText))
  | some _ =>
    let r := env.run
    if r.success then (r.stdout, none)
    else
      let e :=
        if r.stderr.length > 0 then
          joinSep "; " ((goSplitNL r.stderr).filter (fun l => !(isBlankLine l))) ++
            ": " ++ r.errText
        else r.errText
      ("", some ("git diff failed: " ++ e))

deriving instance DecidableEq for Except

/-- Go prefix test `strings.HasPrefix`. -/
def beginsWith (pre s : String) : Bool :=
  pre.toList.isPrefixOf s.toList

theorem splitChar_ne_nil (sep : Char) (l : List Char) : splitChar sep l ≠ [] := by
  cases l with
  | nil => simp [splitChar]
  | cons c rest =>
    simp only [splitChar]
    split
    · simp
    · split <;> simp

theorem goSplitNL_ne_nil (s : String) : goSplitNL s ≠ [] := by
  simpa [goSplitNL] using splitChar_ne_nil (Char.ofNat 10) s.toList

theorem resolveTokens_short (o : options) :
    (resolveTokens o).ShortMessageOnly = o.ShortMessageOnly := by
  unfold resolveTokens
  split <;> rfl

theorem beginsWith_of_prefix (a b s : String) (h : a.toList <+: b.toList) :
    beginsWith a (b ++ s) = true := by
  rw [beginsWith, List.isPrefixOf_iff_prefix]
  have hd : (b ++ s).toList = b.toList ++ s.toList := String.data_append b s
  rw [hd]
  exact h.trans (List.prefix_append _ _)

theorem beginsWith_exclusive (s : String) :
    ¬(beginsWith "git not found" s = true ∧ beginsWith "git diff failed" s = true) := by
  rintro ⟨h1, h2⟩
  rw [beginsWith, List.isPrefixOf_iff_prefix] at h1 h2
  rcases List.prefix_or_prefix_of_prefix h1 h2 with h | h
  · exact absurd h (by decide)
  · exact absurd h (by decide)

/-- C5: every Query of either provider builds a wire request body carrying the
provider's model identifier, temperature 0.1, top-p 0.1, exactly one requested
completion, and exactly three messages in order: the system instructions, the
wrapped changes as a user message, and the wrapped commits as a user
message. -/
theorem c5_wire_request_shape (modelName changes commits : String)
    (opts : List OptionMod) :
    (OpenAI.queryRequest modelName changes commits opts).model = modelName ∧
    (OpenAI.queryRequest modelName changes commits opts).temperature = 1/10 ∧
    (OpenAI.queryRequest modelName changes commits opts).topP = 1/10 ∧
    (OpenAI.queryRequest modelName changes commits opts).howMany = 1 ∧
    (OpenAI.queryRequest modelName changes commits opts).messages =
      [⟨"system", GeneratePrompt opts⟩,
       ⟨"user", wrapChanges changes⟩,
       ⟨"user", wrapCommits commits⟩] ∧
    (OpenRouter.queryRequest modelName changes commits opts).model = modelName ∧
    (OpenRouter.queryRequest modelName changes commits opts).temperature = 1/10 ∧
    (OpenRouter.queryRequest modelName changes commits opts).topP = 1/10 ∧
    (OpenRouter.queryRequest modelName changes commits opts).n = 1 ∧
    (OpenRouter.queryRequest modelName changes commits opts).messages =
      [⟨"system", GeneratePrompt opts⟩,
       ⟨"user", wrapChanges changes⟩,
       ⟨"user", wrapCommits commits⟩] :=
  ⟨rfl, rfl, rfl, rfl, rfl, rfl, rfl, rfl, rfl, rfl⟩

/-- C6: both providers substitute the documented default for an unset (zero)
MaxOutputTokens before building the request and send a caller-set value
unchanged; the prompt generator never reads MaxOutputTokens at all. -/
theorem c6_default_max_tokens (modelName changes commits : String)
    (opts : List OptionMod) :
    (OpenAI.queryRequest modelName changes commits opts).maxCompletionTokens =
      (if (applyOptions opts).MaxOutputTokens = 0 then defaultMaxOutputTokens
       else (applyOptions opts).MaxOutputTokens) ∧
    (OpenRouter.queryRequest modelName changes commits opts).maxTokens =
      (if (applyOptions opts).MaxOutputTokens = 0 then defaultMaxOutputTokens
       else (applyOptions opts).MaxOutputTokens) ∧
    (∀ (s e : Bool) (m m' : Int), generatePrompt ⟨s, e, m⟩ = generatePrompt ⟨s, e, m'⟩) := by
  refine ⟨?_, ?_, fun s e m m' => rfl⟩ <;>
    simp only [OpenAI.queryRequest, OpenAI.newRequestBody,
      OpenRouter.queryRequest, OpenRouter.newRequestBody, resolveTokens] <;>
    split <;> rfl

/-- C8: prompt generation is deterministic — two calls of the generator on
identical options yield byte-identical instruction text. -/
theorem c8_prompt_deterministic (a b : List OptionMod) (h : a = b) :
    GeneratePrompt a = GeneratePrompt b := by
  rw [h]

theorem c8_prompt_deterministic_witness :
    GeneratePrompt [.withEnableEmoji true] = GeneratePrompt [.withEnableEmoji true] :=
  c8_prompt_deterministic [.withEnableEmoji true] [.withEnableEmoji true] rfl

/-- C10: the post-success branch testing that splitting the answer on
newlines gave zero parts is unreachable in both providers: the split always
yields at least one part, so a successfully parsed response with
ShortMessageOnly set always produces a Response, never that error. -/
theorem c10_split_branch_unreachable (changes commits : String)
    (opts : List OptionMod) (resp : HttpResponse) (answer : String)
    (cs : List String)
    (hstatus : resp.statusCode = 200)
    (hshort : (applyOptions opts).ShortMessageOnly = true) :
    (OpenAI.parseResponse resp = .ok answer →
      ∃ r : Response, OpenAI.Query changes commits opts resp = .ok r) ∧
    (resp.decodeChoices = some cs → cs.length ≠ 0 → ¬cs.headD "" = "" →
      ∃ r : Response, OpenRouter.Query changes commits opts resp = .ok r) := by
  constructor
  · intro hp
    refine ⟨⟨GeneratePrompt opts, (goSplitNL answer).headD ""⟩, ?_⟩
    simp [OpenAI.Query, hstatus, hp, resolveTokens_short, hshort,
      List.length_eq_zero, goSplitNL_ne_nil]
  · intro hc hlen hhead
    rw [List.headD_eq_head?_getD] at hhead
    refine ⟨⟨GeneratePrompt opts, (goSplitNL (cs.headD "")).headD ""⟩, ?_⟩
    simp [OpenRouter.Query, hstatus, hc, hlen, hhead, resolveTokens_short, hshort,
      List.length_eq_zero, goSplitNL_ne_nil]

theorem c10_split_branch_unreachable_witness :
    (∃ r : Response,
      OpenAI.Query "" "" [.withShortMessageOnly true] ⟨200, some ["x"], none⟩ = .ok r) ∧
    (∃ r : Response,
      OpenRouter.Query "" "" [.withShortMessageOnly true] ⟨200, some ["x"], none⟩ = .ok r) := by
  have h := c10_split_branch_unreachable "" "" [.withShortMessageOnly true]
    ⟨200, some ["x"], none⟩ "x" ["x"] rfl (by decide)
  exact ⟨h.1 (by decide), h.2 rfl (by decide) (by decide)⟩

/-- C7: the diff collaborator fails with a distinct tool-missing error,
independent of the subprocess, when git cannot be found; on a non-zero exit
of the diff command it fails with "git diff failed" carrying the non-blank
standard-error lines joined by "; "; in both failure cases the diff string
returned is empty. -/
theorem c7_git_failure_modes (env : GitEnv) :
    (env.gitPath = none →
      Git env = ("", some ("git not found: " ++ env.lookErrText)) ∧
      ∀ r : RunOutcome, Git ⟨none, env.lookErrText, r⟩ = Git env) ∧
    (env.gitPath ≠ none → env.run.success = false →
      Git env = ("", some ("git diff failed: " ++
        (if env.run.stderr.length > 0 then
           joinSep "; " ((goSplitNL env.run.stderr).filter (fun l => !(isBlankLine l))) ++
             ": " ++ env.run.errText
         else env.run.errText)))) ∧
    (∀ s : String,
      ¬(beginsWith "git not found" s = true ∧ beginsWith "git diff failed" s = true)) ∧
    beginsWith "git not found" ("git not found: " ++ env.lookErrText) = true ∧
    beginsWith "git diff failed" ("git diff failed: " ++ env.run.errText) = true := by
  refine ⟨?_, ?_, beginsWith_exclusive,
    beginsWith_of_prefix "git not found" "git not found: " env.lookErrText (by decide),
    beginsWith_of_prefix "git diff failed" "git diff failed: " env.run.errText (by decide)⟩
  · intro hnone
    constructor
    · simp [Git, hnone]
    · intro r
      obtain ⟨p, l, u⟩ := env
      cases hnone
      simp [Git]
  · intro hsome hfail
    obtain ⟨p, l, u⟩ := env
    cases p with
    | none => exact absurd rfl hsome
    | some q =>
      simp only at hfail
      simp [Git, hfail]

theorem c7_git_failure_modes_witness :
    (Git ⟨none, "exec lookup failed", ⟨true, "", "", ""⟩⟩ =
      ("", some "git not found: exec lookup failed")) ∧
    (Git ⟨some "/usr/bin/git", "", ⟨false, "", "fatal: not a git repo\n\n", "exit status 128"⟩⟩ =
      ("", some "git diff failed: fatal: not a git repo: exit status 128")) := by
  have h1 := (c7_git_failure_modes ⟨none, "exec lookup failed", ⟨true, "", "", ""⟩⟩).1 rfl
  have h2 := (c7_git_failure_modes
    ⟨some "/usr/bin/git", "", ⟨false, "", "fatal: not a git repo\n\n", "exit status 128"⟩⟩).2.1
    (by decide) rfl
  refine ⟨h1.1, ?_⟩
  rw [h2]
  decide

theorem generatePrompt_tokens_irrelevant (s e : Bool) (m : Int) :
    generatePrompt ⟨s, e, m⟩ = generatePrompt ⟨s, e, 0⟩ := rfl

set_option maxRecDepth 100000 in
/-- C9: the instruction text contains exactly one Guidelines variant — the
compact marker appears exactly when ShortMessageOnly is set, the full-variant
markers exactly when it is not — and the emoji-format examples appear exactly
when EnableEmoji is set, regardless of ShortMessageOnly. -/
theorem c9_guideline_markers (s e : Bool) (m : Int) :
    containsSub "Summarize all changes in a single"
      (joinSep "\n" (generatePrompt ⟨s, e, m⟩)) = s ∧
    containsSub "Commit Body" (joinSep "\n" (generatePrompt ⟨s, e, m⟩)) = !s ∧
    containsSub "Commit Message Structure"
      (joinSep "\n" (generatePrompt ⟨s, e, m⟩)) = !s ∧
    containsSub "<emoji>" (joinSep "\n" (generatePrompt ⟨s, e, m⟩)) = e ∧
    containsSub "🐛 fix(auth): Resolve"
      (joinSep "\n" (generatePrompt ⟨s, e, m⟩)) = e := by
  rw [generatePrompt_tokens_irrelevant]
  cases s <;> cases e <;> exact ⟨by decide, by decide, by decide, by decide, by decide⟩

theorem isPrefixOf_append_self (n suf : List Char) : n.isPrefixOf (n ++ suf) = true := by
  induction n with
  | nil => simp [List.isPrefixOf]
  | cons c cs ih => simp [List.isPrefixOf, ih]

theorem subOf_self_append (n suf : List Char) : subOf n (n ++ suf) = true := by
  cases n with
  | nil => cases suf <;> simp [subOf, List.isPrefixOf]
  | cons c cs => simp [subOf, isPrefixOf_append_self]

theorem subOf_append_right (n pre rest : List Char) (h : subOf n rest = true) :
    subOf n (pre ++ rest) = true := by
  induction pre with
  | nil => simpa using h
  | cons c cs ih => simp [subOf, ih]

theorem toList_append (a b : String) : (a ++ b).toList = a.toList ++ b.toList :=
  String.data_append a b

theorem containsSub_sandwich (m pre suf : String) :
    containsSub m (pre ++ m ++ suf) = true := by
  unfold containsSub
  rw [toList_append, toList_append, List.append_assoc]
  exact subOf_append_right _ _ _ (subOf_self_append _ _)

set_option maxRecDepth 100000 in
/-- C1 counterexample: on the same successful body with two non-empty choices
the two providers return different Response values — OpenAI joins the
choices with a newline, OpenRouter keeps only the first. -/
theorem c1_substitutability_cex :
    OpenAI.Query "" "" [] ⟨200, some ["a", "b"], none⟩ =
      .ok ⟨GeneratePrompt [], "a\nb"⟩ ∧
    OpenRouter.Query "" "" [] ⟨200, some ["a", "b"], none⟩ =
      .ok ⟨GeneratePrompt [], "a"⟩ ∧
    OpenAI.Query "" "" [] ⟨200, some ["a", "b"], none⟩ ≠
      OpenRouter.Query "" "" [] ⟨200, some ["a", "b"], none⟩ :=
  ⟨by decide, by decide, by decide⟩

/-- C1 (amended): the two providers produce identical Response values on a
stubbed 200 body whose choices array has exactly one choice with non-empty
content unchanged by trimming; with several choices (or trimmable content)
OpenAI joins-and-trims while OpenRouter takes the first choice verbatim, and
the results can differ. -/
theorem c1_substitutability (changes commits : String) (opts : List OptionMod)
    (c : String) (resp : HttpResponse)
    (hstatus : resp.statusCode = 200)
    (hc : resp.decodeChoices = some [c])
    (hne : c ≠ "")
    (htrim : goTrim c = c) :
    OpenAI.Query changes commits opts resp = OpenRouter.Query changes commits opts resp := by
  have hbeq : (c == "") = false := by simpa using hne
  simp [OpenAI.Query, OpenRouter.Query, OpenAI.parseResponse, hstatus, hc, hbeq,
    joinSep, htrim, goSplitNL_ne_nil]

set_option maxRecDepth 100000 in
theorem c1_substitutability_witness :
    OpenAI.Query "" "" [] ⟨200, some ["feat: add X"], none⟩ =
      OpenRouter.Query "" "" [] ⟨200, some ["feat: add X"], none⟩ :=
  c1_substitutability "" "" [] "feat: add X" ⟨200, some ["feat: add X"], none⟩
    rfl rfl (by decide) (by decide)

set_option maxRecDepth 100000 in
/-- C2 counterexample: OpenRouter does not trim the reply — content wrapped
in blank lines is returned verbatim as the Answer instead of the trimmed
text required by the claim. -/
theorem c2_answer_trimmed_cex :
    OpenRouter.Query "" "" [] ⟨200, some ["\nfeat: add X\n"], none⟩ =
      .ok ⟨GeneratePrompt [], "\nfeat: add X\n"⟩ ∧
    goTrim "\nfeat: add X\n" = "feat: add X" ∧
    "\nfeat: add X\n" ≠ "feat: add X" :=
  ⟨by decide, by decide, by decide⟩

/-- C2 (amended): OpenAI behaves as the claim states — its Answer is the
newline-join of the non-empty choice contents trimmed of surrounding
newline/tab/space characters, truncated to the first line when
ShortMessageOnly is set; OpenRouter instead returns the first choice's
content verbatim, untrimmed (its first line when ShortMessageOnly is
set). -/
theorem c2_answer_shapes (changes commits : String) (opts : List OptionMod)
    (resp : HttpResponse) (cs : List String)
    (hstatus : resp.statusCode = 200)
    (hc : resp.decodeChoices = some cs) :
    (cs ≠ [] →
      OpenAI.Query changes commits opts resp = .ok
        ⟨GeneratePrompt opts,
         if (applyOptions opts).ShortMessageOnly then
           (goSplitNL (goTrim (joinSep "\n" (cs.filter (fun c => !(c == "")))))).headD ""
         else goTrim (joinSep "\n" (cs.filter (fun c => !(c == ""))))⟩) ∧
    (cs.headD "" ≠ "" →
      OpenRouter.Query changes commits opts resp = .ok
        ⟨GeneratePrompt opts,
         if (applyOptions opts).ShortMessageOnly then (goSplitNL (cs.headD "")).headD ""
         else cs.headD ""⟩) := by
  constructor
  · intro hne
    have hlen : ¬cs.length = 0 := by simpa [List.length_eq_zero] using hne
    cases hshort : (applyOptions opts).ShortMessageOnly <;>
      simp [OpenAI.Query, OpenAI.parseResponse, hstatus, hc, hlen,
        resolveTokens_short, hshort, goSplitNL_ne_nil, List.headD_eq_head?_getD]
  · intro hne
    rw [List.headD_eq_head?_getD] at hne
    have hlen : ¬cs.length = 0 := by
      intro h0
      rw [List.length_eq_zero] at h0
      subst h0
      exact hne rfl
    have hbeq : (cs.head?.getD "" == "") = false := by simpa using hne
    cases hshort : (applyOptions opts).ShortMessageOnly <;>
      simp [OpenRouter.Query, hstatus, hc, hlen, hbeq, resolveTokens_short,
        hshort, goSplitNL_ne_nil, List.headD_eq_head?_getD]

set_option maxRecDepth 100000 in
theorem c2_answer_shapes_witness :
    OpenAI.Query "" "" [] ⟨200, some ["feat: add X\nmore detail"], none⟩ = .ok
      ⟨GeneratePrompt [],
       if (applyOptions []).ShortMessageOnly then
         (goSplitNL (goTrim (joinSep "\n"
           (["feat: add X\nmore detail"].filter (fun c => !(c == "")))))).headD ""
       else goTrim (joinSep "\n"
         (["feat: add X\nmore detail"].filter (fun c => !(c == ""))))⟩ ∧
    OpenRouter.Query "" "" [] ⟨200, some ["feat: add X\nmore detail"], none⟩ = .ok
      ⟨GeneratePrompt [],
       if (applyOptions []).ShortMessageOnly then
         (goSplitNL (["feat: add X\nmore detail"].headD "")).headD ""
       else ["feat: add X\nmore detail"].headD ""⟩ := by
  have h := c2_answer_shapes "" "" [] ⟨200, some ["feat: add X\nmore detail"], none⟩
    ["feat: add X\nmore detail"] rfl rfl
  exact ⟨h.1 (by decide), h.2 (by decide)⟩

/-- True exactly on the error branch of a Query result. -/
def isErr : Except String Response → Bool
  | .error _ => true
  | .ok _ => false

set_option maxRecDepth 100000 in
/-- C3 counterexample: a 200 body with one entirely-empty choice makes OpenAI
return a Response (with empty Answer) instead of the "no response" error the
claim requires, and a body whose first choice is empty but whose second is
not makes OpenRouter error although not all choices are empty. -/
theorem c3_no_response_cex :
    OpenAI.Query "" "" [] ⟨200, some [""], none⟩ = .ok ⟨GeneratePrompt [], ""⟩ ∧
    OpenRouter.Query "" "" [] ⟨200, some ["", "x"], none⟩ =
      .error "no response from OpenRouter API" :=
  ⟨by decide, by decide⟩

/-- C3 (amended): on a 200 response, OpenAI errors exactly when the decoded
body has zero choices (a body whose choices all have empty content yields a
Response with an empty Answer, not an error), while OpenRouter errors exactly
when there are zero choices or the first choice's content is empty
(regardless of the remaining choices). -/
theorem c3_empty_result_errors (changes commits : String) (opts : List OptionMod)
    (resp : HttpResponse) (cs : List String)
    (hstatus : resp.statusCode = 200)
    (hc : resp.decodeChoices = some cs) :
    (isErr (OpenAI.Query changes commits opts resp) = true ↔ cs = []) ∧
    (isErr (OpenRouter.Query changes commits opts resp) = true ↔
      (cs = [] ∨ cs.headD "" = "")) := by
  rcases cs with _ | ⟨h0, t⟩
  · constructor <;>
      simp [OpenAI.Query, OpenRouter.Query, OpenAI.parseResponse, hstatus, hc, isErr]
  · constructor
    · cases hshort : (applyOptions opts).ShortMessageOnly <;>
        simp [OpenAI.Query, OpenAI.parseResponse, hstatus, hc, isErr,
          resolveTokens_short, hshort, goSplitNL_ne_nil, List.length_eq_zero]
    · by_cases hh : h0 = ""
      · subst hh
        simp [OpenRouter.Query, hstatus, hc, isErr]
      · have hbeq : (h0 == "") = false := by simpa using hh
        cases hshort : (applyOptions opts).ShortMessageOnly <;>
          simp [OpenRouter.Query, hstatus, hc, isErr, hbeq, hh,
            resolveTokens_short, hshort, goSplitNL_ne_nil, List.length_eq_zero]

set_option maxRecDepth 100000 in
theorem c3_empty_result_errors_witness :
    (isErr (OpenAI.Query "" "" [] ⟨200, some ["y"], none⟩) = true ↔
      (["y"] : List String) = []) ∧
    (isErr (OpenRouter.Query "" "" [] ⟨200, some ["y"], none⟩) = true ↔
      ((["y"] : List String) = [] ∨ (["y"] : List String).headD "" = "")) :=
  c3_empty_result_errors "" "" [] ⟨200, some ["y"], none⟩ ["y"] rfl rfl

theorem strAppend_assoc (a b c : String) : a ++ b ++ c = a ++ (b ++ c) := by
  apply String.ext
  simp [String.data_append, List.append_assoc]

set_option maxRecDepth 100000 in
/-- C4 counterexample: on HTTP 401 with a decoded body error message
"bad key", OpenRouter's error reports only the raw status code and does not
contain the provider-reported message. -/
theorem c4_error_body_cex :
    OpenRouter.Query "" "" [] ⟨401, some [], some "bad key"⟩ =
      .error "unexpected OpenRouter API response status code: 401" ∧
    containsSub "bad key" "unexpected OpenRouter API response status code: 401" = false :=
  ⟨by decide, by decide⟩

/-- C4 (amended): on a non-200 status both providers return an error and no
Response; OpenAI's error text contains the provider-reported error.message
when the body decodes to a non-empty one and otherwise describes the raw
status, while OpenRouter's error always reports only the raw status code and
ignores the body entirely. -/
theorem c4_protocol_errors (changes commits : String) (opts : List OptionMod)
    (resp : HttpResponse)
    (hstatus : resp.statusCode ≠ 200) :
    (∀ m : String, resp.decodeErrorMessage = some m → m ≠ "" →
      OpenAI.Query changes commits opts resp =
        .error ("OpenAI API error: " ++ m ++
          (" (status code: " ++ toString resp.statusCode ++ ")")) ∧
      containsSub m ("OpenAI API error: " ++ m ++
        (" (status code: " ++ toString resp.statusCode ++ ")")) = true) ∧
    (resp.decodeErrorMessage.getD "" = "" →
      OpenAI.Query changes commits opts resp =
        .error ("unexpected OpenAI API response status code: " ++
          toString resp.statusCode ++ " (" ++ statusText resp.statusCode ++ ")")) ∧
    OpenRouter.Query changes commits opts resp =
      .error ("unexpected OpenRouter API response status code: " ++
        toString resp.statusCode) := by
  refine ⟨?_, ?_, ?_⟩
  · intro m hm hne
    constructor
    · simp [OpenAI.Query, OpenAI.responseToError, hstatus, hm, hne, strAppend_assoc]
    · exact containsSub_sandwich m "OpenAI API error: "
        (" (status code: " ++ toString resp.statusCode ++ ")")
  · intro hempty
    cases hdm : resp.decodeErrorMessage with
    | none =>
      simp [OpenAI.Query, OpenAI.responseToError, hstatus, hdm, strAppend_assoc]
    | some m =>
      rw [hdm] at hempty
      simp only [Option.getD_some] at hempty
      subst hempty
      simp [OpenAI.Query, OpenAI.responseToError, hstatus, hdm, strAppend_assoc]
  · simp [OpenRouter.Query, hstatus]

set_option maxRecDepth 100000 in
theorem c4_protocol_errors_witness :
    (OpenAI.Query "" "" [] ⟨401, some [], some "bad key"⟩ =
      .error ("OpenAI API error: " ++ "bad key" ++
        (" (status code: " ++ toString (401 : Nat) ++ ")")) ∧
     containsSub "bad key" ("OpenAI API error: " ++ "bad key" ++
       (" (status code: " ++ toString (401 : Nat) ++ ")")) = true) ∧
    OpenAI.Query "" "" [] ⟨404, some [], some ""⟩ =
      .error ("unexpected OpenAI API response status code: " ++ toString (404 : Nat) ++
        " (" ++ statusText 404 ++ ")") := by
  refine ⟨(c4_protocol_errors "" "" [] ⟨401, some [], some "bad key"⟩ (by decide)).1
    "bad key" rfl (by decide), ?_⟩
  exact (c4_protocol_errors "" "" [] ⟨404, some [], some ""⟩ (by decide)).2.1 (by decide)
